import Mathlib

/-!
Verification development for the mcp-fastmcp-langchain repository.

The development shallowly embeds the three source files:

* `src/servers/mcp-math-server/main.py` — the `_as_number` coercion helper and
  the six arithmetic tools (`add`, `subtract`, `multiply`, `divide`, `power`,
  `modulus`).
* `src/clients/mcp-expense-client/mcpClientChatBot.py` — the Streamlit chat
  round: catalog construction (`tool_by_name`), history rendering, the
  tool-call dispatch loop with its JSON-string argument handling, and the
  final decision-function call.
* `src/clients/mcp-expense-client/clientTesting.py` — the single-shot test
  client: catalog construction (`named_tools`), its dispatch loop (which does
  not decode string arguments), and its final call made with the
  tools-exposed model.

Python floats are embedded as exact rationals (`ℚ`); machine rounding is
outside every property considered here.  External collaborators (the
language model, `json.loads`, the MCP transports) are parameters of the
embedding, carried in an `Env` record, exactly as the spec treats them as
black boxes.  Python exceptions are values of `PyErr`, and fallible code
returns `Except PyErr _`.
-/

/-- Python exception values that the embedded code can raise. -/
inductive PyErr where
  | typeError (msg : String)
  | valueError (msg : String)
  | zeroDivisionError (msg : String)
  | keyError (key : String)
  deriving DecidableEq, Repr

/-- Python values as they reach the math server tools: ints, floats
(embedded as exact rationals), strings, `None`, and lists.  These are the
value kinds the server's `isinstance` dispatch distinguishes. -/
inductive PyVal where
  | int (n : ℤ)
  | float (q : ℚ)
  | str (s : String)
  | pynone
  | list (l : List PyVal)
  deriving Repr

instance {ε α : Type} [DecidableEq ε] [DecidableEq α] : DecidableEq (Except ε α) := fun
  | .error e, .error f => decidable_of_iff (e = f) (by simp)
  | .error _, .ok _ => isFalse (by simp)
  | .ok _, .error _ => isFalse (by simp)
  | .ok a, .ok b => decidable_of_iff (a = b) (by simp)

/-- Whitespace test used by `str.strip` (ASCII subset; the source strings
never contain the exotic Unicode spaces Python also strips). -/
def pySpace (c : Char) : Bool :=
  c = ' ' ∨ c = '\t' ∨ c = '\n' ∨ c = '\r'

/-- Embedding of Python's `str.strip()`: remove leading and trailing
whitespace. -/
def pyStrip (s : String) : String :=
  ⟨((s.data.dropWhile pySpace).reverse.dropWhile pySpace).reverse⟩

def isDigit (c : Char) : Bool :=
  '0' ≤ c ∧ c ≤ '9'

def digitsToNat (cs : List Char) : ℕ :=
  cs.foldl (fun a c => 10 * a + (c.toNat - '0'.toNat)) 0

/-- Parse an optional exponent suffix (`e`/`E`, optional sign, digits) and
apply it to the mantissa; succeeds on empty input. -/
def parseExp (mant : ℚ) (cs : List Char) : Option ℚ :=
  match cs with
  | [] => some mant
  | c :: rest =>
    if c = 'e' ∨ c = 'E' then
      match rest with
      | '+' :: ds =>
          if ds ≠ [] ∧ ds.all isDigit then some (mant * (10 : ℚ) ^ ((digitsToNat ds : ℤ))) else none
      | '-' :: ds =>
          if ds ≠ [] ∧ ds.all isDigit then some (mant * (10 : ℚ) ^ (-(digitsToNat ds : ℤ))) else none
      | ds =>
          if ds ≠ [] ∧ ds.all isDigit then some (mant * (10 : ℚ) ^ ((digitsToNat ds : ℤ))) else none
    else none

/-- Parse an unsigned decimal literal: digits, optional fractional part,
optional exponent.  At least one digit must be present. -/
def parseUnsigned (cs : List Char) : Option ℚ :=
  let ip := cs.takeWhile isDigit
  let r1 := cs.dropWhile isDigit
  match r1 with
  | '.' :: r2 =>
    let fp := r2.takeWhile isDigit
    let r3 := r2.dropWhile isDigit
    if ip.isEmpty ∧ fp.isEmpty then none
    else parseExp ((digitsToNat ip : ℚ) + (digitsToNat fp : ℚ) / (10 : ℚ) ^ fp.length) r3
  | _ => if ip.isEmpty then none else parseExp (digitsToNat ip) r1

/-- Embedding of Python's `float(s)` on an already-stripped string: an
optional sign followed by a decimal literal.  (`inf`, `nan`, hex forms and
digit underscores are accepted by CPython but exercised nowhere in this
repository, so they are outside the embedding.)  `none` models `float`
raising `ValueError`. -/
def pyFloatOfString (s : String) : Option ℚ :=
  match s.data with
  | '+' :: rest => parseUnsigned rest
  | '-' :: rest => (parseUnsigned rest).map Neg.neg
  | cs => parseUnsigned cs

/-- Embedding of `_as_number` (main.py lines 16-35): ints and floats pass
through `float(x)`; strings go through `float(x.strip())`, whose failure is
a `ValueError`; every other type raises
`TypeError("Expected a number (int/float or numeric string)")`. -/
def asNumber (x : PyVal) : Except PyErr ℚ :=
  match x with
  | .int n => .ok (n : ℚ)
  | .float q => .ok q
  | .str s =>
    match pyFloatOfString (pyStrip s) with
    | some q => .ok q
    | none => .error (.valueError "could not convert string to float")
  | _ => .error (.typeError "Expected a number (int/float or numeric string)")

/-- Embedding of Python's `%` on floats: the remainder takes the sign of
the divisor, `a % b = a - b * floor(a / b)`. -/
def pymod (a b : ℚ) : ℚ :=
  a - b * (⌊a / b⌋ : ℤ)

/-- Embedding of Python's `**` on the coerced numbers.  Integral exponents
are exact; `0.0 ** negative` raises `ZeroDivisionError` in CPython.  For a
non-integral exponent CPython produces an inexact float (or a complex
number when the base is negative), which the exact-rational embedding
cannot represent; no claim depends on that branch, and it is marked with a
distinguishable error value rather than a fabricated result. -/
def powFloat (x y : ℚ) : Except PyErr ℚ :=
  if y.den = 1 then
    if x = 0 ∧ y < 0 then
      .error (.zeroDivisionError "0.0 cannot be raised to a negative power")
    else .ok (x ^ y.num)
  else .error (.valueError "non-integral exponent outside the exact embedding")

/-- `add` (main.py lines 44-49): `_as_number(a) + _as_number(b)`, with `a`
coerced first, as Python evaluates the operands left to right. -/
def add (a b : PyVal) : Except PyErr ℚ :=
  match asNumber a with
  | .error e => .error e
  | .ok x =>
    match asNumber b with
    | .error e => .error e
    | .ok y => .ok (x + y)

/-- `subtract` (main.py lines 51-56). -/
def subtract (a b : PyVal) : Except PyErr ℚ :=
  match asNumber a with
  | .error e => .error e
  | .ok x =>
    match asNumber b with
    | .error e => .error e
    | .ok y => .ok (x - y)

/-- `multiply` (main.py lines 58-63). -/
def multiply (a b : PyVal) : Except PyErr ℚ :=
  match asNumber a with
  | .error e => .error e
  | .ok x =>
    match asNumber b with
    | .error e => .error e
    | .ok y => .ok (x * y)

/-- `divide` (main.py lines 65-76): the divisor is coerced first, the zero
check precedes the coercion of `a`, and the error message is the literal
`"Cannot divide by zero"`. -/
def divide (a b : PyVal) : Except PyErr ℚ :=
  match asNumber b with
  | .error e => .error e
  | .ok divisor =>
    if divisor = 0 then .error (.valueError "Cannot divide by zero")
    else
      match asNumber a with
      | .error e => .error e
      | .ok x => .ok (x / divisor)

/-- `power` (main.py lines 78-83): both operands coerced (left to right),
then Python's `**`. -/
def power (a b : PyVal) : Except PyErr ℚ :=
  match asNumber a with
  | .error e => .error e
  | .ok x =>
    match asNumber b with
    | .error e => .error e
    | .ok y => powFloat x y

/-- `modulus` (main.py lines 85-96): divisor coerced first, zero check with
message `"Cannot perform modulus by zero"`, then Python's `%`. -/
def modulus (a b : PyVal) : Except PyErr ℚ :=
  match asNumber b with
  | .error e => .error e
  | .ok divisor =>
    if divisor = 0 then .error (.valueError "Cannot perform modulus by zero")
    else
      match asNumber a with
      | .error e => .error e
      | .ok x => .ok (pymod x divisor)

/-!
## Client-side data model

JSON-like structured values as LangChain hands them to the clients: the
`args` field of a tool call is either such a structured value or a raw
string still to be decoded.
-/

/-- Structured values (JSON shape). -/
inductive Json where
  | null
  | bool (b : Bool)
  | num (q : ℚ)
  | str (s : String)
  | arr (l : List Json)
  | obj (l : List (String × Json))

/-- Python truthiness on structured values: `None`, `False`, `0`, the empty
string, the empty list and the empty dict are falsy. -/
def jsonFalsy (j : Json) : Bool :=
  match j with
  | .null => true
  | .bool b => !b
  | .num q => q = 0
  | .str s => s = ""
  | .arr l => l.isEmpty
  | .obj l => l.isEmpty

def jsonObjGet (l : List (String × Json)) (k : String) : Option Json :=
  match l with
  | [] => none
  | p :: rest => if p.1 = k then some p.2 else jsonObjGet rest k

/-- Dictionary lookup on a structured value (`d["k"]` on an object). -/
def jsonGet (j : Json) (k : String) : Option Json :=
  match j with
  | .obj l => jsonObjGet l k
  | _ => none

/-- One tool-call request as it appears in an assistant message
(`tc["id"]`, `tc["name"]`, `tc.get("args")`; `args = none` models the key
being absent). -/
structure ToolCall where
  id : String
  name : String
  args : Option Json

/-- A decision-function response: content plus the (possibly empty) list of
tool-call requests.  A model invoked with tools bound (`bind_tools`) may
return a non-empty `toolCalls`; an unbound model never does. -/
structure AIResp where
  content : String
  toolCalls : List ToolCall

/-- Messages of the conversation history.  A `tool` message stores the
`tool_call_id` it answers and its payload (the source serializes the
payload with `json.dumps`; the embedding keeps it structural). -/
inductive Msg where
  | system (content : String)
  | user (content : String)
  | assistant (content : String) (toolCalls : List ToolCall)
  | tool (toolCallId : String) (content : Json)

/-- The `tool_call_id` carried by a message, when it is a Tool message. -/
def Msg.toolCallId? (m : Msg) : Option String :=
  match m with
  | .tool i _ => some i
  | _ => none

/-- A discovered tool: its name and its invocation behaviour
(`tool.ainvoke`), which either returns a structured result or raises. -/
structure Tool where
  name : String
  run : Json → Except PyErr Json

/-!
## Python dict embedding and the two clients' catalogs
-/

/-- `d[k] = v` on a Python dict kept as an insertion-ordered association
list: an existing key is updated in place (keys are unique, so at most one
entry matches), a new key is appended at the end, as Python dicts preserve
insertion order. -/
def pyDictInsert (d : List (String × Tool)) (k : String) (v : Tool) :
    List (String × Tool) :=
  match d with
  | [] => [(k, v)]
  | p :: rest => if p.1 = k then (k, v) :: rest else p :: pyDictInsert rest k v

/-- `d[k]` / `d.get(k)`: the value at key `k`. -/
def pyDictGet (d : List (String × Tool)) (k : String) : Option Tool :=
  match d with
  | [] => none
  | p :: rest => if p.1 = k then some p.2 else pyDictGet rest k

/-- `tool_by_name = {t.name: t for t in tools}` (mcpClientChatBot.py line
90): a dict comprehension inserts left to right, so a duplicated name keeps
the descriptor of the last tool carrying it. -/
def toolByName (ts : List Tool) : List (String × Tool) :=
  ts.foldl (fun d t => pyDictInsert d t.name t) []

/-- `named_tools` built by the loop in clientTesting.py lines 67-69: the
same left-to-right insertion. -/
def namedTools (ts : List Tool) : List (String × Tool) :=
  ts.foldl (fun d t => pyDictInsert d t.name t) []

/-!
## The round loop of both clients

The external collaborators — the decision function with and without the
tool set bound, and `json.loads` — are parameters, collected in `Env`.
`jsonLoads s = none` models `json.loads(s)` raising.  An unbound
`ChatOpenAI` call cannot emit tool calls (no `tools` parameter reaches the
API), so `llm` returns bare content while `llmWithTools` returns an
`AIResp`.
-/

structure Env where
  llm : List Msg → String
  llmWithTools : List Msg → AIResp
  tools : List Tool
  jsonLoads : String → Option Json

/-- `args = tc.get("args") or {}` (mcpClientChatBot.py line 163,
clientTesting.py line 116): a missing or falsy `args` is replaced by the
empty dict. -/
def defaultArgs (a : Option Json) : Json :=
  match a with
  | none => .obj []
  | some v => if jsonFalsy v then .obj [] else v

/-- Argument handling in mcpClientChatBot.py lines 163-170: after the
`or {}` default, a string is passed to `json.loads`; on success the decoded
value replaces it, and on failure the exception is swallowed (`except:
pass`) leaving the raw string in place. -/
def coerceArgs (env : Env) (a : Option Json) : Json :=
  match defaultArgs a with
  | .str s =>
    match env.jsonLoads s with
    | some v => v
    | none => .str s
  | v => v

/-- The dispatch loop of mcpClientChatBot.py lines 160-180: for each
request, coerce the arguments, look the name up in `tool_by_name` (a miss
raises `KeyError`), invoke the tool (a failure propagates), and collect one
Tool message per request in request order.  Any exception aborts the whole
loop with nothing appended. -/
def runToolCalls (env : Env) (tcs : List ToolCall) : Except PyErr (List Msg) :=
  match tcs with
  | [] => .ok []
  | tc :: rest =>
    match pyDictGet (toolByName env.tools) tc.name with
    | none => .error (.keyError tc.name)
    | some t =>
      match t.run (coerceArgs env tc.args) with
      | .error e => .error e
      | .ok res =>
        match runToolCalls env rest with
        | .error e => .error e
        | .ok msgs => .ok (Msg.tool tc.id res :: msgs)

/-- One chat round of mcpClientChatBot.py lines 128-190, returning the
state of the *persistent* `st.session_state.history` after the round,
together with the exception the round raised, if any.  The history is
Streamlit session state: appends made before an exception survive it, and
the session continues with the next user input on that history, so the
round must report the history as it stands when an exception propagates.

The user message is appended (line 135); the tools-bound model decides;
with no tool calls its response is the final assistant message; otherwise
the tool-requesting assistant message is appended (line 157) *before* the
dispatch loop runs.  `tool_msgs` is a local list extended into the history
only after the whole loop succeeded (line 180), so a raised exception
leaves the history at the user + tool-requesting-assistant stage with zero
Tool messages.  On success the Tool messages are appended and the *unbound*
model (`st.session_state.llm`) is invoked on the augmented history, its
content appended as a fresh `AIMessage(content=...)` that carries no tool
calls. -/
def chatBotRound (env : Env) (history : List Msg) (userText : String) :
    List Msg × Option PyErr :=
  let h1 := history ++ [Msg.user userText]
  let first := env.llmWithTools h1
  if first.toolCalls.isEmpty then
    (h1 ++ [Msg.assistant first.content []], none)
  else
    let h2 := h1 ++ [Msg.assistant first.content first.toolCalls]
    match runToolCalls env first.toolCalls with
    | .error e => (h2, some e)
    | .ok toolMsgs =>
      let h3 := h2 ++ toolMsgs
      (h3 ++ [Msg.assistant (env.llm h3) []], none)

/-- The dispatch loop of clientTesting.py lines 111-124: same shape as the
chat bot's, but the catalog is `named_tools` and string arguments are *not*
decoded — `tc.get("args") or {}` is used as is. -/
def clientTestingToolMsgs (env : Env) (tcs : List ToolCall) :
    Except PyErr (List Msg) :=
  match tcs with
  | [] => .ok []
  | tc :: rest =>
    match pyDictGet (namedTools env.tools) tc.name with
    | none => .error (.keyError tc.name)
    | some t =>
      match t.run (defaultArgs tc.args) with
      | .error e => .error e
      | .ok res =>
        match clientTestingToolMsgs env rest with
        | .error e => .error e
        | .ok msgs => .ok (Msg.tool tc.id res :: msgs)

/-- `main()` of clientTesting.py lines 94-140, from the prompt to the
printed response.  The first call goes to `llm_with_tools`; without tool
calls the response is returned directly; otherwise the tools execute and
the *final* call is again made with `llm_with_tools` on the augmented
history `[HumanMessage(prompt), response, *tool_messages]`, so its response
may itself carry tool-call requests. -/
def clientTestingMain (env : Env) (prompt : String) : Except PyErr AIResp :=
  let response := env.llmWithTools [Msg.user prompt]
  if response.toolCalls.isEmpty then .ok response
  else
    match clientTestingToolMsgs env response.toolCalls with
    | .error e => .error e
    | .ok tms =>
      .ok (env.llmWithTools
        ([Msg.user prompt, Msg.assistant response.content response.toolCalls] ++ tms))

/-!
## History rendering (mcpClientChatBot.py lines 112-122)
-/

/-- The render loop: Human messages and AI messages are shown, but an AI
message whose `tool_calls` is truthy (non-empty) is skipped; Tool and
System messages are hidden.  The result lists the `(role, content)` pairs
passed to `st.chat_message`/`st.markdown`, in history order. -/
def rendered (h : List Msg) : List (String × String) :=
  match h with
  | [] => []
  | m :: rest =>
    match m with
    | .user s => ("user", s) :: rendered rest
    | .assistant c tcs =>
      if tcs.isEmpty then ("assistant", c) :: rendered rest else rendered rest
    | _ => rendered rest

/-!
## Server configuration (both clients, identical dicts)
-/

/-- The stdio server entry of `SERVERS`. -/
structure StdioServer where
  transport : String
  command : String
  args : List String

/-- The streamable-http server entry of `SERVERS`. -/
structure HttpServer where
  transport : String
  url : String
  headers : List (String × String)

structure Servers where
  math : StdioServer
  expense : HttpServer

/-- How an f-string renders an optional value: `os.getenv` returns `None`
when the variable is unset, and `f"Bearer {FAST_MCP_API_KEY}"` renders
`None` as the four characters `None`. -/
def pyFStrOpt (o : Option String) : String :=
  match o with
  | some s => s
  | none => "None"

/-- The `SERVERS` dict (mcpClientChatBot.py lines 36-57 and
clientTesting.py lines 27-50, which are identical), as a function of the
`FAST_MCP_API_KEY` environment value.  The construction is total: no code
path inspects whether the key is present. -/
def mkServers (key : Option String) : Servers :=
  { math :=
      { transport := "stdio"
        command := "uv"
        args := ["run", "fastmcp", "run", "servers/mcp-math-server/main.py"] }
    expense :=
      { transport := "streamable_http"
        url := "https://simple-addition.fastmcp.app/mcp"
        headers := [("Authorization", "Bearer " ++ pyFStrOpt key)] } }

/-!
## Concrete tools and environments used by the claim witnesses and
## counterexamples
-/

/-- The descriptor that survives for a name under left-to-right dict
insertion: the **last** tool in the list carrying that name (tools further
right were registered later and override earlier ones). -/
def lastRegistered (ts : List Tool) (n : String) : Option Tool :=
  match ts with
  | [] => none
  | t :: rest =>
    match lastRegistered rest n with
    | some u => some u
    | none => if t.name = n then some t else none

/-- The render predicate the spec describes: show User messages and
Assistant messages that carry no tool-call requests, nothing else. -/
def shouldRender (m : Msg) : Bool :=
  match m with
  | .user _ => true
  | .assistant _ tcs => tcs.isEmpty
  | _ => false

/-- What an entry renders as. -/
def renderEntry (m : Msg) : String × String :=
  match m with
  | .user s => ("user", s)
  | .assistant c _ => ("assistant", c)
  | _ => ("", "")

/-- View of a structured argument value as the Python value the math
server's tool receives (numbers arrive as floats through the JSON layer;
the kinds leave the claims' scope otherwise). -/
def jsonToPy (j : Json) : PyVal :=
  match j with
  | .num q => .float q
  | .str s => .str s
  | .null => .pynone
  | _ => .pynone

/-- The math server's `divide` as the clients reach it through
`tool.ainvoke`: the arguments are read from the argument object and passed
to `divide`; a `ValueError` raised by the server surfaces as a raised
exception from `ainvoke` (the adapter marks the MCP result as an error and
re-raises), which the embedding keeps as the same error value. -/
def mcpDivideTool : Tool :=
  { name := "divide"
    run := fun j =>
      match jsonGet j "a", jsonGet j "b" with
      | some a, some b =>
        match divide (jsonToPy a) (jsonToPy b) with
        | .error e => .error e
        | .ok q => .ok (.num q)
      | _, _ => .error (.typeError "divide missing arguments") }

def echoTool : Tool := { name := "echo", run := fun j => .ok j }

def toolAlpha : Tool := { name := "alpha", run := fun j => .ok j }
def toolBeta : Tool := { name := "beta", run := fun j => .ok j }
def toolGamma : Tool := { name := "gamma", run := fun j => .ok j }

def envC1 : Env :=
  { llm := fun _ => "done"
    llmWithTools := fun _ =>
      { content := "calling"
        toolCalls := [⟨"id1", "echo", some (.num 1)⟩, ⟨"id2", "echo", some (.num 2)⟩] }
    tools := [echoTool]
    jsonLoads := fun _ => none }

def envC2 : Env :=
  { llm := fun _ => "done"
    llmWithTools := fun _ =>
      { content := ""
        toolCalls :=
          [⟨"call1", "divide", some (.obj [("a", .num 10), ("b", .num 0)])⟩] }
    tools := [mcpDivideTool]
    jsonLoads := fun _ => none }

def envC3 : Env :=
  { llm := fun _ => "final"
    llmWithTools := fun _ =>
      { content := ""
        toolCalls := [⟨"c1", "echo", some (.str "not json")⟩] }
    tools := [echoTool]
    jsonLoads := fun _ => none }

def envC6 : Env :=
  { llm := fun _ => "final"
    llmWithTools := fun h =>
      if h.length ≤ 1 then
        { content := "", toolCalls := [⟨"id1", "echo", some (.obj [])⟩] }
      else
        { content := "again", toolCalls := [⟨"id2", "echo", some (.obj [])⟩] }
    tools := [echoTool]
    jsonLoads := fun _ => none }

def envC9 : Env :=
  { llm := fun _ => "done"
    llmWithTools := fun _ =>
      { content := ""
        toolCalls := [⟨"a1", "echo", none⟩, ⟨"a2", "echo", some (.obj [])⟩] }
    tools := [echoTool]
    jsonLoads := fun _ => none }

/-!
## Helper lemmas about the dict embedding
-/

theorem pyDictGet_nil (m : String) : pyDictGet [] m = none := rfl

theorem pyDictGet_cons (p : String × Tool) (rest : List (String × Tool)) (m : String) :
    pyDictGet (p :: rest) m = if p.1 = m then some p.2 else pyDictGet rest m := rfl

theorem pyDictInsert_nil (k : String) (v : Tool) : pyDictInsert [] k v = [(k, v)] := rfl

theorem pyDictInsert_cons (p : String × Tool) (rest : List (String × Tool))
    (k : String) (v : Tool) :
    pyDictInsert (p :: rest) k v =
      if p.1 = k then (k, v) :: rest else p :: pyDictInsert rest k v := rfl

theorem pyDictGet_insert (d : List (String × Tool)) (k : String) (v : Tool)
    (m : String) :
    pyDictGet (pyDictInsert d k v) m = if m = k then some v else pyDictGet d m := by
  induction d with
  | nil =>
    rw [pyDictInsert_nil, pyDictGet_cons, pyDictGet_nil]
    by_cases h : m = k
    · rw [if_pos (show ((k, v) : String × Tool).1 = m from h.symm), if_pos h]
    · rw [if_neg (show ¬ ((k, v) : String × Tool).1 = m from fun hh => h hh.symm), if_neg h]
  | cons p rest ih =>
    rw [pyDictInsert_cons]
    by_cases hp : p.1 = k
    · rw [if_pos hp, pyDictGet_cons, pyDictGet_cons]
      by_cases hm : m = k
      · rw [if_pos (show ((k, v) : String × Tool).1 = m from hm.symm), if_pos hm]
      · rw [if_neg (show ¬ ((k, v) : String × Tool).1 = m from fun hh => hm hh.symm),
            if_neg hm, if_neg (show ¬ p.1 = m from fun hh => hm (hp.symm.trans hh).symm)]
    · rw [if_neg hp, pyDictGet_cons, pyDictGet_cons, ih]
      split_ifs with h1 h2 <;> first | rfl | exact absurd (h1.trans h2) hp

theorem pyDictInsert_keys (d : List (String × Tool)) (k : String) (v : Tool) :
    (pyDictInsert d k v).map Prod.fst =
      if k ∈ d.map Prod.fst then d.map Prod.fst else d.map Prod.fst ++ [k] := by
  induction d with
  | nil => simp [pyDictInsert_nil]
  | cons p rest ih =>
    rw [pyDictInsert_cons]
    by_cases hp : p.1 = k
    · rw [if_pos hp]
      have hmem : k ∈ (p :: rest).map Prod.fst := by simp [hp.symm]
      rw [if_pos hmem]
      simp [hp]
    · rw [if_neg hp]
      have hk : ¬ k = p.1 := fun h => hp h.symm
      simp only [List.map_cons, ih]
      by_cases hmem : k ∈ rest.map Prod.fst
      · rw [if_pos hmem, if_pos (by simp [hmem])]
      · rw [if_neg hmem, if_neg (by simp [hk, hmem])]
        simp

theorem pyDictInsert_keys_nodup (d : List (String × Tool)) (k : String) (v : Tool)
    (h : (d.map Prod.fst).Nodup) : ((pyDictInsert d k v).map Prod.fst).Nodup := by
  rw [pyDictInsert_keys]
  by_cases hk : k ∈ d.map Prod.fst <;> simp [hk, h, List.nodup_append]

theorem pyDictInsert_length (d : List (String × Tool)) (k : String) (v : Tool)
    (h : k ∉ d.map Prod.fst) : (pyDictInsert d k v).length = d.length + 1 := by
  have hkeys := pyDictInsert_keys d k v
  rw [if_neg h] at hkeys
  have h1 : (pyDictInsert d k v).length = ((pyDictInsert d k v).map Prod.fst).length := by
    simp
  rw [h1, hkeys]
  simp

theorem foldl_insert_keys_nodup (ts : List Tool) (d : List (String × Tool))
    (h : (d.map Prod.fst).Nodup) :
    ((ts.foldl (fun d t => pyDictInsert d t.name t) d).map Prod.fst).Nodup := by
  induction ts generalizing d with
  | nil => simpa using h
  | cons t ts ih => exact ih _ (pyDictInsert_keys_nodup _ _ _ h)

theorem foldl_insert_get (ts : List Tool) (d : List (String × Tool)) (n : String) :
    pyDictGet (ts.foldl (fun d t => pyDictInsert d t.name t) d) n =
      match lastRegistered ts n with
      | some t => some t
      | none => pyDictGet d n := by
  induction ts generalizing d with
  | nil => simp [lastRegistered]
  | cons t ts ih =>
    simp only [List.foldl_cons, lastRegistered]
    rw [ih]
    cases lastRegistered ts n with
    | some u => simp
    | none =>
      simp only
      rw [pyDictGet_insert]
      by_cases h : t.name = n
      · rw [if_pos h.symm, if_pos h]
      · rw [if_neg (fun hh => h hh.symm), if_neg h]

theorem foldl_insert_length (ts : List Tool) (d : List (String × Tool))
    (h : ((d.map Prod.fst) ++ ts.map Tool.name).Nodup) :
    (ts.foldl (fun d t => pyDictInsert d t.name t) d).length = d.length + ts.length := by
  induction ts generalizing d with
  | nil => simp
  | cons t ts ih =>
    simp only [List.foldl_cons]
    have hnotin : t.name ∉ d.map Prod.fst := by
      rw [List.nodup_append] at h
      intro hmem
      exact h.2.2 hmem (List.mem_cons_self _ _)
    have hkeys := pyDictInsert_keys d t.name t
    rw [if_neg hnotin] at hkeys
    have hnext : (((pyDictInsert d t.name t).map Prod.fst) ++ ts.map Tool.name).Nodup := by
      rw [hkeys, ← List.append_cons]
      simpa using h
    rw [ih _ hnext, pyDictInsert_length d t.name t hnotin]
    simp only [List.length_cons]
    omega

/-!
## Claim theorems
-/

/-- C4: building the catalog from backends exposing disjoint tool-name sets
yields exactly N+M entries; every name maps to exactly one descriptor (the
key list is duplicate-free); a name collision is resolved
deterministically by last-registered-wins (the surviving descriptor is the
last tool carrying the name, in registration order); and both client
surfaces (`tool_by_name` in mcpClientChatBot.py and `named_tools` in
clientTesting.py) build the catalog with the same policy. -/
theorem c4_catalog_policy :
    (∀ ts : List Tool, ((toolByName ts).map Prod.fst).Nodup)
    ∧ (∀ ts1 ts2 : List Tool, ((ts1 ++ ts2).map Tool.name).Nodup →
        (toolByName (ts1 ++ ts2)).length = ts1.length + ts2.length)
    ∧ (∀ (ts : List Tool) (n : String),
        pyDictGet (toolByName ts) n = lastRegistered ts n)
    ∧ (∀ ts : List Tool, namedTools ts = toolByName ts) := by
  refine ⟨?_, ?_, ?_, ?_⟩
  · intro ts
    exact foldl_insert_keys_nodup ts [] (by simp)
  · intro ts1 ts2 h
    have hlen := foldl_insert_length (ts1 ++ ts2) [] (by simpa using h)
    rw [show toolByName (ts1 ++ ts2) =
        (ts1 ++ ts2).foldl (fun d t => pyDictInsert d t.name t) [] from rfl, hlen]
    simp
  · intro ts n
    have hget := foldl_insert_get ts [] n
    rw [show toolByName ts = ts.foldl (fun d t => pyDictInsert d t.name t) [] from rfl,
      hget]
    cases lastRegistered ts n <;> simp [pyDictGet_nil]
  · intro ts
    rfl

/-- Witness for C4: two backends exposing `{alpha, beta}` and `{gamma}`
(no overlap) give a catalog of exactly 2 + 1 entries. -/
theorem c4_catalog_policy_witness :
    (toolByName ([toolAlpha, toolBeta] ++ [toolGamma])).length = 2 + 1 :=
  c4_catalog_policy.2.1 [toolAlpha, toolBeta] [toolGamma] (by decide)

/-- C5: the rendered view of any history is exactly the User messages and
the tool-call-free Assistant messages, in history order — a pure filter —
and on the concrete history [User, Assistant(with tool_calls), Tool, Tool,
Assistant(final)] the presented sequence has length 2 and consists of the
User message and the final Assistant message. -/
theorem c5_presentation_filter :
    (∀ h : List Msg, rendered h = (h.filter shouldRender).map renderEntry)
    ∧ rendered
        [Msg.user "hi",
         Msg.assistant "" [⟨"i1", "divide", some (Json.obj [])⟩],
         Msg.tool "i1" (Json.str "r1"),
         Msg.tool "i2" (Json.str "r2"),
         Msg.assistant "final" []] = [("user", "hi"), ("assistant", "final")] := by
  constructor
  · intro h
    induction h with
    | nil => rfl
    | cons m rest ih =>
      cases m with
      | user s => simp [rendered, shouldRender, renderEntry, ih]
      | assistant c tcs =>
        by_cases htc : tcs.isEmpty <;>
          simp [rendered, shouldRender, renderEntry, htc, ih]
      | system s => simp [rendered, shouldRender, ih]
      | tool i c => simp [rendered, shouldRender, ih]
  · rfl

theorem runToolCalls_ids (env : Env) (tcs : List ToolCall) (msgs : List Msg)
    (h : runToolCalls env tcs = .ok msgs) :
    msgs.map Msg.toolCallId? = tcs.map (fun tc => some tc.id) := by
  induction tcs generalizing msgs with
  | nil =>
    simp only [runToolCalls] at h
    injection h with h
    subst h
    rfl
  | cons tc rest ih =>
    simp only [runToolCalls] at h
    cases hget : pyDictGet (toolByName env.tools) tc.name with
    | none => simp only [hget] at h; exact absurd h (by simp)
    | some t =>
      simp only [hget] at h
      cases hr : t.run (coerceArgs env tc.args) with
      | error e => simp only [hr] at h; exact absurd h (by simp)
      | ok res =>
        simp only [hr] at h
        cases hrec : runToolCalls env rest with
        | error e => simp only [hrec] at h; exact absurd h (by simp)
        | ok msgs2 =>
          simp only [hrec] at h
          injection h with h
          subst h
          simp [Msg.toolCallId?, ih msgs2 hrec]

/-- Counterexample for C1: the claim demands that after *every* round whose
assistant message carries k requests, exactly k Tool messages are appended
before the next decision-function invocation.  With `divide(10, 0)`
requested (k = 1), the tool raises, the persistent
`st.session_state.history` is left holding the user message and the
dangling tool-requesting assistant message with *zero* Tool messages — the
local `tool_msgs` list is discarded by the exception — and the Streamlit
session survives, so the next user input submits exactly this history
(with one unanswered request) to the decision function.  The round
appends 0 ≠ 1 Tool messages, refuting the claim. -/
theorem c1_correlation_counterexample :
    chatBotRound envC2 [] "divide 10 by 0" =
      ([Msg.user "divide 10 by 0",
        Msg.assistant ""
          [⟨"call1", "divide", some (.obj [("a", .num 10), ("b", .num 0)])⟩]],
       some (.valueError "Cannot divide by zero"))
    ∧ ((chatBotRound envC2 [] "divide 10 by 0").1.filter
        (fun m => (Msg.toolCallId? m).isSome)).length = 0 := ⟨rfl, rfl⟩

/-- C1 amended: the correlation invariant holds exactly for the rounds
whose dispatch loop completes.  In a completed tool-using round the new
history interposes — between the tool-requesting assistant message and the
final decision-function call — exactly one Tool message per request,
each carrying the `tool_call_id` of one request, matched one-to-one and in
request order, and the final assistant message is computed from the
history after all Tool messages were appended.  But when the dispatch loop
raises, the round ends with the user and tool-requesting assistant
messages persisted and zero Tool messages for the k requests, so the
invariant is violated for the next decision-function invocation. -/
theorem c1_correlation_amended (env : Env) (hist : List Msg) (u : String)
    (hk : (env.llmWithTools (hist ++ [Msg.user u])).toolCalls ≠ []) :
    (∀ msgs : List Msg,
      runToolCalls env (env.llmWithTools (hist ++ [Msg.user u])).toolCalls = .ok msgs →
      chatBotRound env hist u =
        ((((hist ++ [Msg.user u]) ++
            [Msg.assistant (env.llmWithTools (hist ++ [Msg.user u])).content
              (env.llmWithTools (hist ++ [Msg.user u])).toolCalls]) ++ msgs) ++
          [Msg.assistant
            (env.llm (((hist ++ [Msg.user u]) ++
              [Msg.assistant (env.llmWithTools (hist ++ [Msg.user u])).content
                (env.llmWithTools (hist ++ [Msg.user u])).toolCalls]) ++ msgs)) []],
         none)
      ∧ msgs.map Msg.toolCallId? =
          (env.llmWithTools (hist ++ [Msg.user u])).toolCalls.map (fun tc => some tc.id))
    ∧ (∀ e : PyErr,
      runToolCalls env (env.llmWithTools (hist ++ [Msg.user u])).toolCalls = .error e →
      chatBotRound env hist u =
        ((hist ++ [Msg.user u]) ++
          [Msg.assistant (env.llmWithTools (hist ++ [Msg.user u])).content
            (env.llmWithTools (hist ++ [Msg.user u])).toolCalls],
         some e)) := by
  constructor
  · intro msgs hrun
    constructor
    · simp only [chatBotRound]
      rw [if_neg (by simpa using hk), hrun]
    · exact runToolCalls_ids env _ msgs hrun
  · intro e he
    simp only [chatBotRound]
    rw [if_neg (by simpa using hk), he]

/-- Witness for C1 amended: a completed round with two echo-tool requests
yields two Tool messages whose ids match the requests in order, and the
divide-by-zero round ends with the dangling assistant message persisted
and the exception raised. -/
theorem c1_correlation_amended_witness :
    ([Msg.tool "id1" (Json.num 1), Msg.tool "id2" (Json.num 2)].map Msg.toolCallId? =
      (envC1.llmWithTools ([] ++ [Msg.user "hi"])).toolCalls.map (fun tc => some tc.id))
    ∧ chatBotRound envC2 [] "go" =
        (([] ++ [Msg.user "go"]) ++
          [Msg.assistant (envC2.llmWithTools ([] ++ [Msg.user "go"])).content
            (envC2.llmWithTools ([] ++ [Msg.user "go"])).toolCalls],
         some (.valueError "Cannot divide by zero")) :=
  ⟨((c1_correlation_amended envC1 [] "hi" (List.cons_ne_nil _ _)).1
      [Msg.tool "id1" (Json.num 1), Msg.tool "id2" (Json.num 2)] rfl).2,
   (c1_correlation_amended envC2 [] "go" (List.cons_ne_nil _ _)).2
      (.valueError "Cannot divide by zero") rfl⟩

/-- C9: a round's requests whose `args` are missing (`tc.get("args")` is
`None`) or an empty object are still dispatched — each one resolves its
tool, invokes it with the empty argument set `{}`, and produces its own
Tool message, pairing the request list with the message list one-to-one in
order (`List.Forall₂`), so none is skipped. -/
theorem c9_empty_args_dispatched (env : Env) (tcs : List ToolCall) (msgs : List Msg)
    (hargs : ∀ tc ∈ tcs, tc.args = none ∨ tc.args = some (Json.obj []))
    (hrun : runToolCalls env tcs = .ok msgs) :
    msgs.length = tcs.length ∧
    List.Forall₂ (fun (tc : ToolCall) (m : Msg) => ∃ t r,
      pyDictGet (toolByName env.tools) tc.name = some t ∧
      t.run (Json.obj []) = .ok r ∧ m = Msg.tool tc.id r) tcs msgs := by
  induction tcs generalizing msgs with
  | nil =>
    simp only [runToolCalls] at hrun
    injection hrun with h2
    subst h2
    exact ⟨rfl, List.Forall₂.nil⟩
  | cons tc rest ih =>
    have hempty : coerceArgs env tc.args = Json.obj [] := by
      rcases hargs tc (by simp) with h | h <;> rw [h] <;> rfl
    simp only [runToolCalls] at hrun
    cases hget : pyDictGet (toolByName env.tools) tc.name with
    | none => simp only [hget] at hrun; exact absurd hrun (by simp)
    | some t =>
      simp only [hget] at hrun
      cases hr : t.run (coerceArgs env tc.args) with
      | error e => simp only [hr] at hrun; exact absurd hrun (by simp)
      | ok res =>
        simp only [hr] at hrun
        cases hrec : runToolCalls env rest with
        | error e => simp only [hrec] at hrun; exact absurd hrun (by simp)
        | ok msgs2 =>
          simp only [hrec] at hrun
          injection hrun with h2
          subst h2
          have htail := ih msgs2 (fun tc2 h2 => hargs tc2 (List.mem_cons_of_mem _ h2)) hrec
          refine ⟨by simp [htail.1], List.Forall₂.cons ⟨t, res, hget, ?_, rfl⟩ htail.2⟩
          rw [← hempty]
          exact hr

/-- Witness for C9: one request with `args` missing and one with an empty
object are both dispatched with `{}` and yield their own Tool messages. -/
theorem c9_empty_args_dispatched_witness :
    ([Msg.tool "a1" (Json.obj []), Msg.tool "a2" (Json.obj [])].length =
      [(⟨"a1", "echo", none⟩ : ToolCall), ⟨"a2", "echo", some (.obj [])⟩].length) ∧
    List.Forall₂ (fun (tc : ToolCall) (m : Msg) => ∃ t r,
      pyDictGet (toolByName envC9.tools) tc.name = some t ∧
      t.run (Json.obj []) = .ok r ∧ m = Msg.tool tc.id r)
      [⟨"a1", "echo", none⟩, ⟨"a2", "echo", some (.obj [])⟩]
      [Msg.tool "a1" (Json.obj []), Msg.tool "a2" (Json.obj [])] :=
  c9_empty_args_dispatched envC9
    [⟨"a1", "echo", none⟩, ⟨"a2", "echo", some (.obj [])⟩]
    [Msg.tool "a1" (Json.obj []), Msg.tool "a2" (Json.obj [])]
    (by intro tc htc
        rcases htc with _ | ⟨_, htc⟩
        · exact Or.inl rfl
        · rcases htc with _ | ⟨_, htc⟩
          · exact Or.inr rfl
          · cases htc)
    rfl

/-!
## Error containment (C2), argument coercion (C3), finalization (C6),
## credentials (C7)
-/

/-- Counterexample for C2: with `divide(10, 0)` requested, the raised
`ValueError("Cannot divide by zero")` propagates out of the dispatch loop —
there is no try/except around `tool.ainvoke` in mcpClientChatBot.py lines
172-177 — so the round aborts with the exception: the persistent history
holds only the user and tool-requesting assistant messages, no Tool
message carrying an error payload is appended and no final Assistant
message is produced, contradicting the claimed containment.  The same
abort happens on the clientTesting.py surface, where the process dies with
the exception. -/
theorem c2_error_containment_counterexample :
    chatBotRound envC2 [] "divide 10 by 0" =
      ([Msg.user "divide 10 by 0",
        Msg.assistant ""
          [⟨"call1", "divide", some (.obj [("a", .num 10), ("b", .num 0)])⟩]],
       some (.valueError "Cannot divide by zero"))
    ∧ clientTestingMain envC2 "divide 10 by 0" =
      .error (.valueError "Cannot divide by zero") := ⟨rfl, rfl⟩

/-- C2 amended: a failure inside the dispatch loop is *not* converted into
an error-payload Tool message; it aborts the round, leaving the persistent
history at the user + tool-requesting-assistant stage with no Tool
messages and no final Assistant message.  A name that does not resolve in
`tool_by_name` raises `KeyError`, and a tool invocation failure propagates
the tool's exception. -/
theorem c2_error_containment_amended (env : Env) (hist : List Msg) (u : String)
    (e : PyErr)
    (hk : (env.llmWithTools (hist ++ [Msg.user u])).toolCalls ≠ [])
    (he : runToolCalls env (env.llmWithTools (hist ++ [Msg.user u])).toolCalls
      = .error e) :
    chatBotRound env hist u =
      ((hist ++ [Msg.user u]) ++
        [Msg.assistant (env.llmWithTools (hist ++ [Msg.user u])).content
          (env.llmWithTools (hist ++ [Msg.user u])).toolCalls],
       some e)
    ∧ (∀ (env2 : Env) (tc : ToolCall) (rest : List ToolCall),
        pyDictGet (toolByName env2.tools) tc.name = none →
        runToolCalls env2 (tc :: rest) = .error (.keyError tc.name))
    ∧ (∀ (env2 : Env) (tc : ToolCall) (rest : List ToolCall) (t : Tool) (e2 : PyErr),
        pyDictGet (toolByName env2.tools) tc.name = some t →
        t.run (coerceArgs env2 tc.args) = .error e2 →
        runToolCalls env2 (tc :: rest) = .error e2) := by
  refine ⟨?_, ?_, ?_⟩
  · simp only [chatBotRound]
    rw [if_neg (by simpa using hk), he]
  · intro env2 tc rest hget
    simp only [runToolCalls, hget]
  · intro env2 tc rest t e2 hget hr
    simp only [runToolCalls, hget, hr]

/-- Witness for C2 amended: the `divide(10, 0)` round aborts with the
propagated `ValueError`. -/
theorem c2_error_containment_amended_witness :
    chatBotRound envC2 [] "u" =
      (([] ++ [Msg.user "u"]) ++
        [Msg.assistant (envC2.llmWithTools ([] ++ [Msg.user "u"])).content
          (envC2.llmWithTools ([] ++ [Msg.user "u"])).toolCalls],
       some (.valueError "Cannot divide by zero"))
    ∧ (∀ (env2 : Env) (tc : ToolCall) (rest : List ToolCall),
        pyDictGet (toolByName env2.tools) tc.name = none →
        runToolCalls env2 (tc :: rest) = .error (.keyError tc.name))
    ∧ (∀ (env2 : Env) (tc : ToolCall) (rest : List ToolCall) (t : Tool) (e2 : PyErr),
        pyDictGet (toolByName env2.tools) tc.name = some t →
        t.run (coerceArgs env2 tc.args) = .error e2 →
        runToolCalls env2 (tc :: rest) = .error e2) :=
  c2_error_containment_amended envC2 [] "u" (.valueError "Cannot divide by zero")
    (List.cons_ne_nil _ _) rfl

/-- Counterexample for C3: when the argument string does not decode
(`json.loads("not json")` raises, modelled by `jsonLoads` returning
`none`), the `except: pass` in mcpClientChatBot.py lines 167-170 swallows
the failure and the tool *is* silently invoked with the undecoded string —
the Tool message's payload is the raw string the echo tool received — and
the round completes normally with no `ArgumentCoercionError` surfaced
anywhere, contradicting the claim. -/
theorem c3_argument_coercion_counterexample :
    chatBotRound envC3 [] "go" =
      ([Msg.user "go",
        Msg.assistant "" [⟨"c1", "echo", some (.str "not json")⟩],
        Msg.tool "c1" (.str "not json"),
        Msg.assistant "final" []],
       none) := rfl

/-- C3 amended: in mcpClientChatBot.py a non-empty string argument is
passed to `json.loads`; on success the decoded value is dispatched, but on
failure the exception is swallowed and the tool is invoked with the raw
undecoded string (no `ArgumentCoercionError` exists — the `PyErr` taxonomy
of the code has no such case).  clientTesting.py performs no decoding at
all: a string argument is dispatched as-is. -/
theorem c3_argument_coercion_amended (env : Env) (s : String) (hs : s ≠ "") :
    (env.jsonLoads s = none → coerceArgs env (some (.str s)) = .str s)
    ∧ (∀ v, env.jsonLoads s = some v → coerceArgs env (some (.str s)) = v)
    ∧ defaultArgs (some (.str s)) = .str s := by
  have hd : defaultArgs (some (.str s)) = .str s := by
    simp [defaultArgs, jsonFalsy, hs]
  refine ⟨?_, ?_, hd⟩
  · intro hnone
    simp [coerceArgs, hd, hnone]
  · intro v hsome
    simp [coerceArgs, hd, hsome]

/-- Witness for C3 amended: `"not json"` fails to decode under `envC3` and
is dispatched raw. -/
theorem c3_argument_coercion_amended_witness :
    coerceArgs envC3 (some (.str "not json")) = .str "not json" :=
  (c3_argument_coercion_amended envC3 "not json" (by decide)).1 rfl

/-- Counterexample for C6: in clientTesting.py the final call is made with
`llm_with_tools` — the tool set *is* re-exposed — so the second
decision-function response can carry further tool-call requests: under
`envC6` (a decision function that requests a tool on every call) the
returned final response carries the tool call `id2`.  The choice is
therefore not consistent across the two client surfaces. -/
theorem c6_finalizing_counterexample :
    clientTestingMain envC6 "p" =
      .ok { content := "again", toolCalls := [⟨"id2", "echo", some (.obj [])⟩] } := rfl

/-- C6 amended: mcpClientChatBot.py finalizes with the *unbound* model and
wraps its content in a fresh `AIMessage(content=...)`, so every completed
round ends in an Assistant message with no tool calls; clientTesting.py
finalizes with `llm_with_tools`, whose response can request further tools
(they are then ignored).  The two surfaces are inconsistent. -/
theorem c6_finalizing_amended :
    (∀ (env : Env) (hist : List Msg) (u : String) (nh : List Msg),
        chatBotRound env hist u = (nh, none) →
        ∃ c, nh.getLast? = some (.assistant c []))
    ∧ clientTestingMain envC6 "p" =
        .ok { content := "again", toolCalls := [⟨"id2", "echo", some (.obj [])⟩] } := by
  constructor
  · intro env hist u nh h
    simp only [chatBotRound] at h
    by_cases hempty : (env.llmWithTools (hist ++ [Msg.user u])).toolCalls.isEmpty
    · rw [if_pos hempty] at h
      injection h with h1 h2
      refine ⟨(env.llmWithTools (hist ++ [Msg.user u])).content, ?_⟩
      rw [← h1]
      exact List.getLast?_concat _
    · rw [if_neg hempty] at h
      cases hrec : runToolCalls env (env.llmWithTools (hist ++ [Msg.user u])).toolCalls with
      | error e =>
        simp only [hrec] at h
        injection h with h1 h2
        exact absurd h2 (by simp)
      | ok msgs =>
        simp only [hrec] at h
        injection h with h1 h2
        refine ⟨env.llm (((hist ++ [Msg.user u]) ++
          [Msg.assistant (env.llmWithTools (hist ++ [Msg.user u])).content
            (env.llmWithTools (hist ++ [Msg.user u])).toolCalls]) ++ msgs), ?_⟩
        rw [← h1]
        exact List.getLast?_concat _
  · rfl

/-- Witness for C6 amended: a concrete completed chat-bot round whose last
history entry is an Assistant message with no tool calls. -/
theorem c6_finalizing_amended_witness :
    ∃ c, ([Msg.user "p",
           Msg.assistant "" [⟨"id1", "echo", some (.obj [])⟩],
           Msg.tool "id1" (.obj []),
           Msg.assistant "final" []] : List Msg).getLast? =
      some (.assistant c []) :=
  c6_finalizing_amended.1 envC6 [] "p"
    [Msg.user "p",
     Msg.assistant "" [⟨"id1", "echo", some (.obj [])⟩],
     Msg.tool "id1" (.obj []),
     Msg.assistant "final" []] rfl

/-- Counterexample for C7: with `FAST_MCP_API_KEY` unset (`os.getenv`
returning `None`), the clients build the `SERVERS` configuration — and
hand it to the MCP client constructor — with the placeholder bearer header
`"Bearer None"`.  No local check raises a connect-time error for the
missing credential, contradicting the claim that absence can never result
in a call carrying an empty or placeholder bearer header. -/
theorem c7_missing_credential_counterexample :
    (mkServers none).expense.headers = [("Authorization", "Bearer None")] := rfl

/-- C7 amended: the configuration construction is total in the credential:
present or absent, the expense entry carries `Authorization: Bearer <key>`
with `None` interpolated when the key is missing, and the rest of the
configuration does not depend on the key.  Any failure can come only from
the remote server rejecting the placeholder, not from a local
connect-time guard. -/
theorem c7_missing_credential_amended :
    (∀ key, (mkServers key).expense.headers =
      [("Authorization", "Bearer " ++ pyFStrOpt key)])
    ∧ (mkServers none).expense.headers = [("Authorization", "Bearer None")]
    ∧ (∀ k, (mkServers (some k)).expense.headers = [("Authorization", "Bearer " ++ k)])
    ∧ (∀ key, (mkServers key).math = (mkServers (some "x")).math)
    ∧ (∀ key, (mkServers key).expense.url = "https://simple-addition.fastmcp.app/mcp") :=
  ⟨fun _ => rfl, rfl, fun _ => rfl, fun _ => rfl, fun _ => rfl⟩

/-!
## Math-server claims (C8, C10)
-/

/-- C8: for inputs accepted by the numeric coercion, `divide` fails with
the divide-by-zero `ValueError` exactly when the divisor coerces to zero,
and otherwise returns the quotient; `modulus` likewise fails with the
modulus-by-zero `ValueError` exactly when the divisor coerces to zero and
otherwise returns the Python remainder. -/
theorem c8_zero_guards (a b : PyVal) (x y : ℚ)
    (ha : asNumber a = .ok x) (hb : asNumber b = .ok y) :
    ((divide a b = .error (.valueError "Cannot divide by zero")) ↔ y = 0)
    ∧ ((modulus a b = .error (.valueError "Cannot perform modulus by zero")) ↔ y = 0)
    ∧ (y ≠ 0 → divide a b = .ok (x / y) ∧ modulus a b = .ok (pymod x y)) := by
  by_cases hy : y = 0
  · subst hy
    refine ⟨?_, ?_, fun hne => absurd rfl hne⟩ <;> simp [divide, modulus, hb]
  · refine ⟨?_, ?_, fun _ => ?_⟩ <;> simp [divide, modulus, ha, hb, hy]

/-- Witness for C8: `divide(10, 0)` raises the divide-by-zero `ValueError`;
`divide(7, 2)` and `modulus(7, 2)` return quotient and remainder. -/
theorem c8_zero_guards_witness :
    divide (.int 10) (.int 0) = .error (.valueError "Cannot divide by zero")
    ∧ divide (.int 7) (.int 2) = .ok (((7 : ℤ) : ℚ) / ((2 : ℤ) : ℚ))
    ∧ modulus (.int 7) (.int 2) = .ok (pymod ((7 : ℤ) : ℚ) ((2 : ℤ) : ℚ)) := by
  have h0 := c8_zero_guards (.int 10) (.int 0) ((10 : ℤ) : ℚ) ((0 : ℤ) : ℚ) rfl rfl
  have h2 := c8_zero_guards (.int 7) (.int 2) ((7 : ℤ) : ℚ) ((2 : ℤ) : ℚ) rfl rfl
  have hne : ((2 : ℤ) : ℚ) ≠ 0 := by norm_num
  exact ⟨h0.1.mpr rfl, (h2.2.2 hne).1, (h2.2.2 hne).2⟩

/-- C10: every math tool accepts each argument as an int, a float, or a
string parsing as a decimal number after stripping surrounding whitespace,
coerces it before computing — `add`, `subtract`, `multiply`, `power`,
`divide` and `modulus` all factor through `asNumber` — so
`add("45", " 34 ")` returns `79.0`; an argument of any other kind (a
non-numeric string included), in *either* position, makes the tool raise
instead of returning a value: the coercion failure is a `TypeError` or a
`ValueError` and it propagates out of the tool, whichever operand carries
it — covering a failing first operand, a failing second operand after a
successful first, and, for `divide`/`modulus` (which coerce the divisor
first and check it for zero before touching the dividend), a failing
dividend with the divisor either nonzero (the dividend's error propagates)
or zero (the zero-guard `ValueError` fires first, as in the source). -/
theorem c10_numeric_coercion :
    (∀ n : ℤ, asNumber (.int n) = .ok (n : ℚ))
    ∧ (∀ q : ℚ, asNumber (.float q) = .ok q)
    ∧ (∀ (s : String) (q : ℚ), pyFloatOfString (pyStrip s) = some q →
        asNumber (.str s) = .ok q)
    ∧ (∀ s : String, pyFloatOfString (pyStrip s) = none →
        asNumber (.str s) = .error (.valueError "could not convert string to float"))
    ∧ (∀ (a b : PyVal) (x y : ℚ), asNumber a = .ok x → asNumber b = .ok y →
        add a b = .ok (x + y) ∧ subtract a b = .ok (x - y)
        ∧ multiply a b = .ok (x * y) ∧ power a b = powFloat x y
        ∧ divide a b =
            (if y = 0 then .error (.valueError "Cannot divide by zero")
             else .ok (x / y))
        ∧ modulus a b =
            (if y = 0 then .error (.valueError "Cannot perform modulus by zero")
             else .ok (pymod x y)))
    ∧ add (.str "45") (.str " 34 ") = .ok 79
    ∧ (∀ (a b : PyVal) (e : PyErr), asNumber a = .error e →
        add a b = .error e ∧ subtract a b = .error e ∧ multiply a b = .error e
        ∧ power a b = .error e)
    ∧ (∀ (a b : PyVal) (e : PyErr), asNumber b = .error e →
        divide a b = .error e ∧ modulus a b = .error e)
    ∧ (∀ (a b : PyVal) (x : ℚ) (e : PyErr),
        asNumber a = .ok x → asNumber b = .error e →
        add a b = .error e ∧ subtract a b = .error e ∧ multiply a b = .error e
        ∧ power a b = .error e)
    ∧ (∀ (a b : PyVal) (y : ℚ) (e : PyErr),
        asNumber b = .ok y → asNumber a = .error e →
        (y ≠ 0 → divide a b = .error e ∧ modulus a b = .error e)
        ∧ (y = 0 →
            divide a b = .error (.valueError "Cannot divide by zero")
            ∧ modulus a b = .error (.valueError "Cannot perform modulus by zero")))
    ∧ (∀ (v : PyVal) (e : PyErr), asNumber v = .error e →
        (∃ m, e = .typeError m) ∨ (∃ m, e = .valueError m)) := by
  refine ⟨fun n => rfl, fun q => rfl, ?_, ?_, ?_, ?_, ?_, ?_, ?_, ?_, ?_⟩
  · intro s q h
    simp [asNumber, h]
  · intro s h
    simp [asNumber, h]
  · intro a b x y ha hb
    refine ⟨?_, ?_, ?_, ?_, ?_, ?_⟩ <;>
      simp [add, subtract, multiply, power, divide, modulus, ha, hb]
  · have h79 : add (.str "45") (.str " 34 ") = .ok (((45 : ℕ) : ℚ) + ((34 : ℕ) : ℚ)) := rfl
    rw [h79]
    norm_num
  · intro a b e ha
    refine ⟨?_, ?_, ?_, ?_⟩ <;> simp [add, subtract, multiply, power, ha]
  · intro a b e hb
    refine ⟨?_, ?_⟩ <;> simp [divide, modulus, hb]
  · intro a b x e ha hb
    refine ⟨?_, ?_, ?_, ?_⟩ <;> simp [add, subtract, multiply, power, ha, hb]
  · intro a b y e hb ha
    constructor
    · intro hy
      refine ⟨?_, ?_⟩ <;> simp [divide, modulus, ha, hb, hy]
    · intro hy
      subst hy
      refine ⟨?_, ?_⟩ <;> simp [divide, modulus, hb]
  · intro v e h
    cases v with
    | int n => simp [asNumber] at h
    | float q => simp [asNumber] at h
    | str s =>
      simp only [asNumber] at h
      cases hp : pyFloatOfString (pyStrip s) with
      | some q => simp only [hp] at h; exact absurd h (by simp)
      | none =>
        simp only [hp] at h
        injection h with h
        exact Or.inr ⟨_, h.symm⟩
    | pynone =>
      simp only [asNumber] at h
      injection h with h
      exact Or.inl ⟨_, h.symm⟩
    | list l =>
      simp only [asNumber] at h
      injection h with h
      exact Or.inl ⟨_, h.symm⟩

/-- Witness for C10: the binary tools coerce `int` arguments and compute on
the coerced values; `add(1, None)` propagates the second operand's
`TypeError`; `divide(None, 2)` propagates the first operand's `TypeError`;
and a coercion failure is always a `TypeError` or a `ValueError`. -/
theorem c10_numeric_coercion_witness :
    (add (.int 2) (.int 3) = .ok (((2 : ℤ) : ℚ) + ((3 : ℤ) : ℚ))
      ∧ subtract (.int 2) (.int 3) = .ok (((2 : ℤ) : ℚ) - ((3 : ℤ) : ℚ))
      ∧ multiply (.int 2) (.int 3) = .ok (((2 : ℤ) : ℚ) * ((3 : ℤ) : ℚ))
      ∧ power (.int 2) (.int 3) = powFloat ((2 : ℤ) : ℚ) ((3 : ℤ) : ℚ)
      ∧ divide (.int 2) (.int 3) =
          (if ((3 : ℤ) : ℚ) = 0 then .error (.valueError "Cannot divide by zero")
           else .ok (((2 : ℤ) : ℚ) / ((3 : ℤ) : ℚ)))
      ∧ modulus (.int 2) (.int 3) =
          (if ((3 : ℤ) : ℚ) = 0 then .error (.valueError "Cannot perform modulus by zero")
           else .ok (pymod ((2 : ℤ) : ℚ) ((3 : ℤ) : ℚ))))
    ∧ (add (.int 1) .pynone =
          .error (.typeError "Expected a number (int/float or numeric string)")
        ∧ subtract (.int 1) .pynone =
          .error (.typeError "Expected a number (int/float or numeric string)")
        ∧ multiply (.int 1) .pynone =
          .error (.typeError "Expected a number (int/float or numeric string)")
        ∧ power (.int 1) .pynone =
          .error (.typeError "Expected a number (int/float or numeric string)"))
    ∧ (divide .pynone (.int 2) =
          .error (.typeError "Expected a number (int/float or numeric string)")
        ∧ modulus .pynone (.int 2) =
          .error (.typeError "Expected a number (int/float or numeric string)"))
    ∧ ((∃ m, PyErr.typeError "Expected a number (int/float or numeric string)"
          = .typeError m)
        ∨ (∃ m, PyErr.typeError "Expected a number (int/float or numeric string)"
          = .valueError m)) :=
  ⟨c10_numeric_coercion.2.2.2.2.1 (.int 2) (.int 3) _ _ rfl rfl,
   c10_numeric_coercion.2.2.2.2.2.2.2.2.1 (.int 1) .pynone ((1 : ℤ) : ℚ)
     (.typeError "Expected a number (int/float or numeric string)") rfl rfl,
   (c10_numeric_coercion.2.2.2.2.2.2.2.2.2.1 .pynone (.int 2) ((2 : ℤ) : ℚ)
     (.typeError "Expected a number (int/float or numeric string)") rfl rfl).1
     (by norm_num),
   c10_numeric_coercion.2.2.2.2.2.2.2.2.2.2 .pynone
     (.typeError "Expected a number (int/float or numeric string)") rfl⟩
